import Mathlib

/-!
Verification development for the transcription backend.

Shallow embedding of the job orchestration and progress subsystem of
src/backend/app/services/whisper.py and src/backend/app/api/transcribe.py.
Python float arithmetic is modelled with exact rationals; the presentation
rounding calls (round(x, k)) that the source applies to floats just before
returning them are omitted, so every field holds the exact value. Python
ints are modelled as Int, strings as String, None-able values as Option.
Wall-clock reads (time.time()) are passed in as explicit parameters.
-/

namespace GTS

/-- Price per minute of the remote OpenAI Whisper API (whisper.py line 14). -/
def OPENAI_WHISPER_PRICE_PER_MINUTE : ℚ := 6 / 1000

/-- Estimated local compute cost per minute (whisper.py line 15). -/
def LOCAL_COMPUTE_COST_PER_MINUTE : ℚ := 1 / 1000

/-- Embedding of the CostMetrics dataclass (whisper.py lines 21-35). -/
structure CostMetrics where
  audio_duration_seconds : ℚ
  audio_duration_minutes : ℚ
  file_size_bytes : ℤ
  file_size_mb : ℚ
  processing_time_seconds : ℚ
  processing_speed_ratio : ℚ
  cloud_api_cost : ℚ
  local_compute_cost : ℚ
  savings : ℚ
  savings_percentage : ℚ
deriving Repr, DecidableEq

/-- Embedding of the ProviderResult dataclass (whisper.py lines 38-47). -/
structure ProviderResult where
  provider : String
  text : String
  language : String
  duration : ℚ
  confidence : ℚ
  processing_time_seconds : ℚ
  cost : ℚ
deriving Repr, DecidableEq

/-- Embedding of the TranscriptionResult dataclass (whisper.py lines 50-60). -/
structure TranscriptionResult where
  text : String
  language : String
  duration : ℚ
  confidence : ℚ
  cost_metrics : Option CostMetrics
  provider : String
  local_result : Option ProviderResult
  cloud_result : Option ProviderResult
deriving Repr, DecidableEq

/-- Embedding of the TranscriptionProgress dataclass (whisper.py lines 63-78). -/
structure TranscriptionProgress where
  job_id : String
  status : String
  progress : ℚ
  current_segment : ℤ
  total_segments : ℤ
  elapsed_seconds : ℚ
  estimated_remaining : ℚ
  current_text : String
  message : String
  estimated_cloud_cost : ℚ
  audio_duration_seconds : ℚ
  file_size_mb : ℚ
  provider : String
deriving Repr, DecidableEq

/-- Embedding of the TranscriptionJob dataclass (whisper.py lines 81-94). -/
structure TranscriptionJob where
  job_id : String
  status : String
  progress : ℚ
  current_segment : ℤ
  total_segments : ℤ
  start_time : ℚ
  audio_duration : ℚ
  file_size_bytes : ℤ
  current_text : String
  result : Option TranscriptionResult
  error : Option String
  provider : String
deriving Repr, DecidableEq

/-- Embedding of WhisperService.create_job (whisper.py lines 191-195); the
field values come from the dataclass defaults of TranscriptionJob. -/
def create_job (job_id : String) (file_size_bytes : ℤ) (provider : String) :
    TranscriptionJob :=
  { job_id := job_id
    status := "pending"
    progress := 0
    current_segment := 0
    total_segments := 0
    start_time := 0
    audio_duration := 0
    file_size_bytes := file_size_bytes
    current_text := ""
    result := none
    error := none
    provider := provider }

/-- Embedding of WhisperService._calculate_costs (whisper.py lines 214-243),
with the final round(x, k) presentation calls omitted (exact rationals). -/
def calculate_costs (audio_duration processing_time : ℚ)
    (file_size_bytes : ℤ) (provider : String) : CostMetrics :=
  let audio_minutes := audio_duration / 60
  let cloud_cost := audio_minutes * OPENAI_WHISPER_PRICE_PER_MINUTE
  let local_cost := audio_minutes * LOCAL_COMPUTE_COST_PER_MINUTE
  let savings_and_pct : ℚ × ℚ :=
    if provider = "cloud" then (0, 0)
    else (cloud_cost - local_cost,
          if cloud_cost > 0 then (cloud_cost - local_cost) / cloud_cost * 100
          else 0)
  let speed_ratio := if processing_time > 0 then audio_duration / processing_time
                     else 0
  { audio_duration_seconds := audio_duration
    audio_duration_minutes := audio_minutes
    file_size_bytes := file_size_bytes
    file_size_mb := (file_size_bytes : ℚ) / (1024 * 1024)
    processing_time_seconds := processing_time
    processing_speed_ratio := speed_ratio
    cloud_api_cost := cloud_cost
    local_compute_cost := local_cost
    savings := savings_and_pct.1
    savings_percentage := savings_and_pct.2 }

/-- The actual_cost local variable computed by _calculate_costs
(whisper.py lines 221-227): the effective cost of the job, cloud_api_cost
for the remote provider and local_compute_cost otherwise. The source
computes it but does not store it in the returned CostMetrics. -/
def effective_cost (audio_duration : ℚ) (provider : String) : ℚ :=
  let audio_minutes := audio_duration / 60
  if provider = "cloud" then audio_minutes * OPENAI_WHISPER_PRICE_PER_MINUTE
  else audio_minutes * LOCAL_COMPUTE_COST_PER_MINUTE

/-- Modelled from the spec: section 4.5 reference formula for
savings_percentage, namely savings divided by cloud_api_cost times 100,
with value 0 when cloud_api_cost is 0, and 0 for the remote provider. -/
def spec_savings_percentage (audio_duration : ℚ) (provider : String) : ℚ :=
  let cloud_cost := audio_duration / 60 * OPENAI_WHISPER_PRICE_PER_MINUTE
  let local_cost := audio_duration / 60 * LOCAL_COMPUTE_COST_PER_MINUTE
  if provider = "cloud" then 0
  else if cloud_cost = 0 then 0 else (cloud_cost - local_cost) / cloud_cost * 100

/-- Embedding of WhisperService._get_status_message (whisper.py lines 284-306). -/
def get_status_message (job : TranscriptionJob) : String :=
  let provider_label :=
    if job.provider ≠ "local" then "[" ++ job.provider.toUpper ++ "] " else ""
  if job.status = "pending" then provider_label ++ "Waiting to start..."
  else if job.status = "uploading" then provider_label ++ "Receiving audio file..."
  else if job.status = "processing" then
    provider_label ++ "Preparing audio for transcription..."
  else if job.status = "loading_model" then
    provider_label ++ "Loading Whisper model..."
  else if job.status = "transcribing" then
    if job.total_segments > 0 then
      provider_label ++ "Transcribing segment " ++ toString job.current_segment
        ++ "/" ++ toString job.total_segments ++ "..."
    else provider_label ++ "Transcribing audio..."
  else if job.status = "transcribing_cloud" then
    "[CLOUD] Sending to OpenAI Whisper API..."
  else if job.status = "complete" then
    provider_label ++ "Transcription complete!"
  else if job.status = "error" then
    provider_label ++ "Error: " ++ (match job.error with
      | some e => e
      | none => "None")
  else job.status

/-- Embedding of the body of WhisperService.get_progress after the job
lookup succeeded (whisper.py lines 251-282). The wall clock is passed in
as now; elapsed and the remaining-time estimate follow the source exactly,
with the presentation rounding omitted. -/
def get_progress_of_job (job : TranscriptionJob) (now : ℚ) : TranscriptionProgress :=
  let elapsed := if job.start_time > 0 then now - job.start_time else 0
  let estimated_remaining :=
    if job.progress > 15 ∧ elapsed > 0 then
      let progress_since_start := job.progress - 15
      if progress_since_start > 0 then
        let time_per_percent := elapsed / progress_since_start
        let remaining_percent := 100 - job.progress
        max 0 (time_per_percent * remaining_percent)
      else 0
    else 0
  let audio_minutes := if job.audio_duration > 0 then job.audio_duration / 60 else 0
  { job_id := job.job_id
    status := job.status
    progress := job.progress
    current_segment := job.current_segment
    total_segments := job.total_segments
    elapsed_seconds := elapsed
    estimated_remaining := estimated_remaining
    current_text := if job.current_text ≠ "" then job.current_text.takeRight 200 else ""
    message := get_status_message job
    estimated_cloud_cost := audio_minutes * OPENAI_WHISPER_PRICE_PER_MINUTE
    audio_duration_seconds := job.audio_duration
    file_size_mb := if job.file_size_bytes > 0 then (job.file_size_bytes : ℚ) / (1024 * 1024)
                    else 0
    provider := job.provider }

/-- Embedding of WhisperService.get_progress (whisper.py lines 245-282):
absent job yields none, otherwise the snapshot above. -/
def get_progress (job : Option TranscriptionJob) (now : ℚ) :
    Option TranscriptionProgress :=
  job.map (fun j => get_progress_of_job j now)

/-- Modelled from the spec: section 4.3 fallback for progress at most 15,
an estimated remaining time of about 3 times the audio duration minus the
elapsed time, floored at 0. No such fallback exists in the source. -/
def spec_heuristic_remaining (audio_duration elapsed : ℚ) : ℚ :=
  max 0 (3 * audio_duration - elapsed)

/-- Python int() truncation toward zero, applied to a rational. -/
def pyInt (q : ℚ) : ℤ := if 0 ≤ q then ⌊q⌋ else ⌈q⌉

/-- A transcription segment as yielded by the inference engine: an
end-timestamp, the text, and an average log-probability (the lazy sequence
consumed by transcribe_local, whisper.py lines 399-430). The field end_
stands for the attribute named end in the source, a Lean keyword. -/
structure Segment where
  end_ : ℚ
  text : String
  avg_logprob : ℚ
deriving Repr, DecidableEq

/-- The duration and detected-language record returned by the engine next
to the segment sequence (the info object, whisper.py line 399). -/
structure EngineInfo where
  duration : ℚ
  language : String
deriving Repr, DecidableEq

/-- The accumulator state of the segment loop in transcribe_local
(whisper.py lines 411-430): collected text parts, accumulated
log-probability, segment count, and the mutated job. -/
structure SegState where
  text_parts : List String
  total_confidence : ℚ
  segment_count : ℤ
  job : TranscriptionJob
deriving Repr, DecidableEq

/-- Embedding of one iteration of the segment loop of transcribe_local
(whisper.py lines 416-430): bumps current_segment, revises total_segments
upward when exceeded, appends the stripped text, accumulates the
log-probability, and recomputes progress as min(95, 15 + end/duration*80). -/
def consume_segment (info_duration : ℚ) (st : SegState) (seg : Segment) : SegState :=
  let segment_count := st.segment_count + 1
  let j1 := { st.job with current_segment := segment_count }
  let j2 :=
    if segment_count > j1.total_segments then
      { j1 with total_segments :=
          segment_count + max 1 (pyInt ((info_duration - seg.end_) / 7)) }
    else j1
  let text_parts := st.text_parts ++ [seg.text.trim]
  let j3 := { j2 with current_text := String.intercalate " " text_parts }
  let progress_pct := if info_duration > 0 then seg.end_ / info_duration * 80 else 0
  let j4 := { j3 with progress := min 95 (15 + progress_pct) }
  { text_parts := text_parts
    total_confidence := st.total_confidence + seg.avg_logprob
    segment_count := segment_count
    job := j4 }

/-- The progress value written by the segment loop after consuming a
segment with end-timestamp e of audio of total duration D
(whisper.py lines 427-428). -/
def localSegmentProgress (D e : ℚ) : ℚ :=
  min 95 (15 + (if D > 0 then e / D * 80 else 0))

/-- Embedding of WhisperService.transcribe_local (whisper.py lines
370-455). The engine call (model.transcribe) is the fallible step and is
passed in as an Except: on failure the job has already been moved through
loading_model and transcribing, mirroring lines 389-405; on success the
segment loop runs and a local ProviderResult is produced. The elapsed
wall-clock span is passed in as processing_time. -/
def transcribe_local (job : TranscriptionJob)
    (outcome : Except String (List Segment × EngineInfo))
    (processing_time : ℚ) : TranscriptionJob × Except String ProviderResult :=
  let job1 := { job with status := "loading_model", progress := 10 }
  let job2 := { job1 with status := "transcribing", progress := 15 }
  match outcome with
  | .error e => (job2, .error e)
  | .ok (segs, info) =>
    let job3 := { job2 with audio_duration := info.duration,
                            total_segments := max 1 (pyInt (info.duration / 7)) }
    let final := List.foldl (consume_segment info.duration)
      ⟨[], 0, 0, job3⟩ segs
    let job4 := { final.job with total_segments := final.segment_count }
    let avg_confidence :=
      if final.segment_count > 0 then
        min 1 (max 0 (1 + final.total_confidence / (final.segment_count : ℚ)))
      else 0
    (job4, .ok
      { provider := "local"
        text := String.intercalate " " final.text_parts
        language := info.language
        duration := info.duration
        confidence := avg_confidence
        processing_time_seconds := processing_time
        cost := info.duration / 60 * LOCAL_COMPUTE_COST_PER_MINUTE })

/-- Closed form of the ProviderResult produced by a successful
transcribe_local run; proved equal to the fold result below. -/
def local_provider_result (segs : List Segment) (info : EngineInfo)
    (processing_time : ℚ) : ProviderResult :=
  let n : ℤ := segs.length
  { provider := "local"
    text := String.intercalate " " (segs.map (fun s => s.text.trim))
    language := info.language
    duration := info.duration
    confidence :=
      if n > 0 then
        min 1 (max 0 (1 + (segs.map Segment.avg_logprob).sum / (n : ℚ)))
      else 0
    processing_time_seconds := processing_time
    cost := info.duration / 60 * LOCAL_COMPUTE_COST_PER_MINUTE }

/-- The error write performed by the except branches (whisper.py lines
531-534, transcription.py lines 88-91, transcribe.py lines 199-202): it
sets status to error and stores the message, touching nothing else. -/
def error_write (job : TranscriptionJob) (msg : String) : TranscriptionJob :=
  { job with status := "error", error := some msg }

/-- The first writes of transcribe_with_progress (whisper.py lines
466-475): resolve or create the job, record file size and provider, stamp
the start time and move to processing at progress 5. -/
def begin_execution (job0 : Option TranscriptionJob) (job_id : String)
    (audio_len : ℤ) (provider : String) (now : ℚ) : TranscriptionJob :=
  let job := match job0 with
    | some j => { j with file_size_bytes := audio_len, provider := provider }
    | none => create_job job_id audio_len provider
  { job with start_time := now, status := "processing", progress := 5 }

/-- Embedding of WhisperService.transcribe_with_progress (whisper.py lines
457-535). The two awaited legs are passed in as their outcomes: the local
leg as the engine outcome fed to transcribe_local, the cloud leg as the
awaited transcribe_cloud result. The storage saves do not alter job fields
and are omitted; now and finish are the two wall-clock reads. On any leg
failure the except branch applies error_write and re-raises; on success
the complete write sets progress 100 and the result together. -/
def transcribe_with_progress (job_id : String) (job0 : Option TranscriptionJob)
    (audio_len : ℤ) (provider : String)
    (localOutcome : Except String (List Segment × EngineInfo))
    (local_processing_time : ℚ)
    (cloudOutcome : Except String ProviderResult)
    (now finish : ℚ) : TranscriptionJob :=
  let job := begin_execution job0 job_id audio_len provider now
  let localStep : TranscriptionJob × Except String (Option ProviderResult) :=
    if provider ∈ ["local", "both"] then
      match transcribe_local job localOutcome local_processing_time with
      | (j, .ok r) => (j, .ok (some r))
      | (j, .error e) => (j, .error e)
    else (job, .ok none)
  match localStep with
  | (j, .error e) => error_write j e
  | (j, .ok local_result) =>
    let cloudStep : TranscriptionJob × Except String (Option ProviderResult) :=
      if provider ∈ ["cloud", "both"] then
        let j2 := { j with status := "transcribing_cloud",
                           progress := if provider = "both" then 50 else 15 }
        match cloudOutcome with
        | .ok r => (j2, .ok (some r))
        | .error e => (j2, .error e)
      else (j, .ok none)
    match cloudStep with
    | (j2, .error e) => error_write j2 e
    | (j2, .ok cloud_result) =>
      let primary := if provider = "cloud" then cloud_result else local_result
      let processing_time := finish - now
      let duration := match local_result with
        | some lr => lr.duration
        | none => match primary with
          | some p => p.duration
          | none => 0
      let cost_metrics := calculate_costs duration processing_time audio_len provider
      let result : TranscriptionResult :=
        { text := (primary.map ProviderResult.text).getD ""
          language := (primary.map ProviderResult.language).getD "unknown"
          duration := duration
          confidence := (primary.map ProviderResult.confidence).getD 0
          cost_metrics := some cost_metrics
          provider := provider
          local_result := local_result
          cloud_result := cloud_result }
      { j2 with status := "complete", progress := 100, result := some result }

/-- The shape of the nested result dict written by _job_to_dict
(whisper.py lines 136-149): the five scalar fields always, the three
nested dataclasses only when present (asdict of a dataclass and
reconstruction via keyword expansion are inverse field-for-field, so the
nested dicts are modelled by the structures themselves). -/
structure ResultDict where
  text : String
  language : String
  duration : ℚ
  confidence : ℚ
  provider : String
  cost_metrics : Option CostMetrics
  local_result : Option ProviderResult
  cloud_result : Option ProviderResult
deriving Repr, DecidableEq

/-- The shape of the dict written by _job_to_dict (whisper.py lines
120-150): every scalar job field, the error message (possibly None), and
the result dict only when a result is present. -/
structure JobDict where
  job_id : String
  status : String
  progress : ℚ
  current_segment : ℤ
  total_segments : ℤ
  start_time : ℚ
  audio_duration : ℚ
  file_size_bytes : ℤ
  current_text : String
  error : Option String
  provider : String
  result : Option ResultDict
deriving Repr, DecidableEq

/-- Embedding of WhisperService._job_to_dict (whisper.py lines 120-150). -/
def job_to_dict (job : TranscriptionJob) : JobDict :=
  { job_id := job.job_id
    status := job.status
    progress := job.progress
    current_segment := job.current_segment
    total_segments := job.total_segments
    start_time := job.start_time
    audio_duration := job.audio_duration
    file_size_bytes := job.file_size_bytes
    current_text := job.current_text
    error := job.error
    provider := job.provider
    result := job.result.map (fun r =>
      { text := r.text
        language := r.language
        duration := r.duration
        confidence := r.confidence
        provider := r.provider
        cost_metrics := r.cost_metrics
        local_result := r.local_result
        cloud_result := r.cloud_result }) }

/-- Embedding of WhisperService._dict_to_job (whisper.py lines 152-189).
The source reads each key with a default; the nested truthiness checks on
the optional sub-dicts become matches on the Options. -/
def dict_to_job (data : JobDict) : TranscriptionJob :=
  let job : TranscriptionJob :=
    { job_id := data.job_id
      status := data.status
      progress := data.progress
      current_segment := data.current_segment
      total_segments := data.total_segments
      start_time := data.start_time
      audio_duration := data.audio_duration
      file_size_bytes := data.file_size_bytes
      current_text := data.current_text
      result := none
      error := data.error
      provider := data.provider }
  match data.result with
  | none => job
  | some r =>
    let cost_metrics := match r.cost_metrics with
      | some cm => some cm
      | none => none
    let local_result := match r.local_result with
      | some lr => some lr
      | none => none
    let cloud_result := match r.cloud_result with
      | some cr => some cr
      | none => none
    let res : TranscriptionResult :=
      { text := r.text
        language := r.language
        duration := r.duration
        confidence := r.confidence
        provider := r.provider
        cost_metrics := cost_metrics
        local_result := local_result
        cloud_result := cloud_result }
    { job with result := some res }

/-- One event written to the SSE stream by the generator in
stream_progress (transcribe.py lines 218-299): a periodic snapshot, a
terminal snapshot (complete or error, after which the loop breaks), or
the lost-job error object emitted when the job vanished mid-stream. -/
inductive SseEvent where
  | snapshot (p : TranscriptionProgress)
  | terminal (p : TranscriptionProgress)
  | lostJob
deriving Repr, DecidableEq

/-- Embedding of the cadence loop of the SSE generator (transcribe.py
lines 223-299) over the finite list of successive get_progress reads it
observes: a missing read emits the lost-job object and breaks, a terminal
status emits once and breaks, anything else emits a snapshot and loops. -/
def event_generator_loop : List (Option TranscriptionProgress) → List SseEvent
  | [] => []
  | none :: _ => [SseEvent.lostJob]
  | some p :: rest =>
    if p.status = "complete" then [SseEvent.terminal p]
    else if p.status = "error" then [SseEvent.terminal p]
    else SseEvent.snapshot p :: event_generator_loop rest

/-- The gate of the SSE generator (transcribe.py lines 219-221): execution
is started if and only if the status seen at subscribe time is pending or
uploading. -/
def triggers_execution (status : String) : Bool :=
  status = "pending" || status = "uploading"

/-- The response of the progress-stream endpoint: either the immediate
not-found rejection raised before any stream is opened (transcribe.py
lines 214-216), or a stream recording whether execution was started and
the events emitted by the cadence loop. -/
inductive StreamResponse where
  | notFound (detail : String)
  | stream (started : Bool) (events : List SseEvent)
deriving Repr, DecidableEq

/-- Embedding of the stream_progress endpoint (transcribe.py lines
208-309): the job lookup result at subscribe time decides between the 404
rejection and the streaming response; the stream records the
execution-start decision and the cadence-loop events over the successive
progress reads. -/
def stream_progress (job : Option TranscriptionJob)
    (reads : List (Option TranscriptionProgress)) : StreamResponse :=
  match job with
  | none => StreamResponse.notFound "Job not found"
  | some initial_job =>
    StreamResponse.stream (triggers_execution initial_job.status)
      (event_generator_loop reads)

/-- How many executions a single subscription started. -/
def started_count : StreamResponse → ℕ
  | .notFound _ => 0
  | .stream started _ => if started then 1 else 0

/-- The cadence-loop events carried by a response; the not-found rejection
carries none. -/
def response_events : StreamResponse → List SseEvent
  | .notFound _ => []
  | .stream _ evs => evs

/-- The accepted content types of the start endpoint (transcribe.py lines
133-137). -/
def start_valid_types : List String :=
  ["audio/mpeg", "audio/mp3", "audio/wav", "audio/wave", "audio/x-wav",
   "audio/mp4", "audio/m4a", "audio/x-m4a", "audio/ogg", "audio/flac",
   "audio/webm", "video/webm", "application/octet-stream"]

/-- The accepted file extensions of the start endpoint (transcribe.py
line 138). -/
def start_valid_extensions : List String :=
  [".mp3", ".wav", ".m4a", ".ogg", ".flac", ".webm", ".mp4", ".aac", ".wma"]

/-- The accepted provider values of the start endpoint (transcribe.py
line 161). -/
def valid_providers : List String := ["local", "cloud", "both"]

/-- Embedding of the start_transcription endpoint (transcribe.py lines
121-181): content-type or extension validation, empty-payload rejection,
silent fallback of an unrecognized provider to local, then job creation
in the uploading state. The generated uuid is passed in as job_id and the
payload length as audio_len; errors carry the HTTP status and detail. -/
def start_transcription (job_id : String) (content_type filename : String)
    (provider : String) (audio_len : ℤ) : Except (ℕ × String) TranscriptionJob :=
  let file_ext :=
    if filename.contains '.' then
      (filename.toLower.splitOn ".").getLastD ""
    else ""
  let is_valid_type :=
    content_type.startsWith "audio/" || decide (content_type ∈ start_valid_types)
  let is_valid_ext := decide (("." ++ file_ext) ∈ start_valid_extensions)
  if ¬ (is_valid_type || is_valid_ext) then
    .error (400, "Invalid file type: " ++ content_type
      ++ ". Please upload an audio file.")
  else if audio_len = 0 then
    .error (400, "Empty file uploaded")
  else
    let provider := if provider ∈ valid_providers then provider else "local"
    .ok { create_job job_id audio_len provider with status := "uploading" }

theorem consume_segment_progress (D : ℚ) (st : SegState) (seg : Segment) :
    (consume_segment D st seg).job.progress = localSegmentProgress D seg.end_ := by
  simp only [consume_segment, localSegmentProgress]

theorem consume_segment_result (D : ℚ) (st : SegState) (seg : Segment) :
    (consume_segment D st seg).job.result = st.job.result := by
  simp only [consume_segment]
  split <;> rfl

theorem consume_segment_error (D : ℚ) (st : SegState) (seg : Segment) :
    (consume_segment D st seg).job.error = st.job.error := by
  simp only [consume_segment]
  split <;> rfl

theorem foldl_consume_result (D : ℚ) (segs : List Segment) (st : SegState) :
    (List.foldl (consume_segment D) st segs).job.result = st.job.result := by
  induction segs generalizing st with
  | nil => rfl
  | cons a l ih => rw [List.foldl_cons, ih, consume_segment_result]

theorem foldl_consume_error (D : ℚ) (segs : List Segment) (st : SegState) :
    (List.foldl (consume_segment D) st segs).job.error = st.job.error := by
  induction segs generalizing st with
  | nil => rfl
  | cons a l ih => rw [List.foldl_cons, ih, consume_segment_error]

theorem foldl_consume_text_parts (D : ℚ) (segs : List Segment) (st : SegState) :
    (List.foldl (consume_segment D) st segs).text_parts
      = st.text_parts ++ segs.map (fun s => s.text.trim) := by
  induction segs generalizing st with
  | nil => simp
  | cons a l ih =>
    rw [List.foldl_cons, ih]
    simp [consume_segment]

theorem foldl_consume_total_confidence (D : ℚ) (segs : List Segment) (st : SegState) :
    (List.foldl (consume_segment D) st segs).total_confidence
      = st.total_confidence + (segs.map Segment.avg_logprob).sum := by
  induction segs generalizing st with
  | nil => simp
  | cons a l ih =>
    rw [List.foldl_cons, ih]
    simp [consume_segment]
    ring

theorem foldl_consume_count (D : ℚ) (segs : List Segment) (st : SegState) :
    (List.foldl (consume_segment D) st segs).segment_count
      = st.segment_count + segs.length := by
  induction segs generalizing st with
  | nil => simp
  | cons a l ih =>
    rw [List.foldl_cons, ih]
    simp [consume_segment]
    ring

theorem transcribe_local_snd (job : TranscriptionJob) (segs : List Segment)
    (info : EngineInfo) (pt : ℚ) :
    (transcribe_local job (Except.ok (segs, info)) pt).2
      = Except.ok (local_provider_result segs info pt) := by
  simp only [transcribe_local, local_provider_result]
  rw [foldl_consume_text_parts, foldl_consume_total_confidence, foldl_consume_count]
  simp

/-- Claim C2: during local transcription, after every consumed segment the
progress equals min(95, 15 + (segment.end / total_duration) * 80), is 15
when the total duration is not positive, is monotone in the end-timestamp
(hence non-decreasing along a sequence of increasing end-timestamps),
stays within [15, 95] for non-negative end-timestamps, and for 60s audio a
segment ending at 20s yields progress 125/3 (about 41.7). -/
theorem local_transcription_progress_formula
    (D e e₁ e₂ : ℚ) (st : SegState) (pre : List Segment) (seg : Segment)
    (he : 0 ≤ e) (h12 : e₁ ≤ e₂) :
    (List.foldl (consume_segment D) st (pre ++ [seg])).job.progress
        = localSegmentProgress D seg.end_ ∧
    (D ≤ 0 → localSegmentProgress D e = 15) ∧
    localSegmentProgress D e₁ ≤ localSegmentProgress D e₂ ∧
    15 ≤ localSegmentProgress D e ∧
    localSegmentProgress D e ≤ 95 ∧
    localSegmentProgress 60 20 = 125 / 3 := by
  refine ⟨?_, ?_, ?_, ?_, ?_, ?_⟩
  · rw [List.foldl_append]
    simp only [List.foldl_cons, List.foldl_nil]
    exact consume_segment_progress D _ seg
  · intro hD
    simp only [localSegmentProgress, if_neg (not_lt.mpr hD)]
    norm_num
  · unfold localSegmentProgress
    rcases le_or_lt D 0 with hD | hD
    · simp only [if_neg (not_lt.mpr hD)]
      exact le_rfl
    · simp only [if_pos hD]
      have h2 : e₁ / D * 80 ≤ e₂ / D * 80 := by gcongr
      exact min_le_min le_rfl (by linarith)
  · unfold localSegmentProgress
    rcases le_or_lt D 0 with hD | hD
    · rw [if_neg (not_lt.mpr hD)]
      norm_num
    · simp only [if_pos hD]
      have h1 : 0 ≤ e / D * 80 := by positivity
      exact le_min (by norm_num) (by linarith)
  · exact min_le_left _ _
  · unfold localSegmentProgress
    norm_num

theorem local_transcription_progress_formula_witness :
    15 ≤ localSegmentProgress 60 20 ∧ localSegmentProgress 60 20 = 125 / 3 :=
  ⟨(local_transcription_progress_formula 60 20 20 40
      ⟨[], 0, 0, create_job "j" 0 "local"⟩ [] ⟨20, "", 0⟩
      (by norm_num) (by norm_num)).2.2.2.1,
   (local_transcription_progress_formula 60 20 20 40
      ⟨[], 0, 0, create_job "j" 0 "local"⟩ [] ⟨20, "", 0⟩
      (by norm_num) (by norm_num)).2.2.2.2.2⟩

/-- Claim C4 counterexample: at audio_duration = -60, the source guard
cloud_cost > 0 yields savings_percentage 0, while the reference formula of
the claim (0 only when cloud_api_cost is 0, otherwise savings divided by
cloud_api_cost times 100) yields 250/3; the two disagree. -/
theorem calculate_costs_reference_counterexample :
    (calculate_costs (-60) 10 0 "local").savings_percentage = 0 ∧
    spec_savings_percentage (-60) "local" = 250 / 3 ∧
    (calculate_costs (-60) 10 0 "local").savings_percentage ≠
      spec_savings_percentage (-60) "local" := by
  have hps : ("local" : String) = "cloud" ↔ False := by
    constructor
    · intro h
      exact absurd h (by decide)
    · exact False.elim
  refine ⟨?_, ?_, ?_⟩ <;>
    norm_num [calculate_costs, spec_savings_percentage, hps,
      OPENAI_WHISPER_PRICE_PER_MINUTE, LOCAL_COMPUTE_COST_PER_MINUTE]

/-- Claim C4 (amended: savings_percentage is 0 whenever cloud_api_cost is
not positive, rather than only when it is 0): the cost calculation matches
the reference definition, with the remote provider (cloud) yielding
savings 0 and savings_percentage 0, the other providers yielding savings
cloud minus local and the guarded percentage, the effective cost picked by
provider, and the speed ratio guarded against non-positive processing
time. -/
theorem calculate_costs_matches_reference
    (audio_duration processing_time : ℚ) (file_size_bytes : ℤ)
    (provider : String) :
    (calculate_costs audio_duration processing_time file_size_bytes
        provider).cloud_api_cost
      = audio_duration / 60 * OPENAI_WHISPER_PRICE_PER_MINUTE ∧
    (calculate_costs audio_duration processing_time file_size_bytes
        provider).local_compute_cost
      = audio_duration / 60 * LOCAL_COMPUTE_COST_PER_MINUTE ∧
    (provider = "cloud" →
      effective_cost audio_duration provider
        = (calculate_costs audio_duration processing_time file_size_bytes
            provider).cloud_api_cost ∧
      (calculate_costs audio_duration processing_time file_size_bytes
          provider).savings = 0 ∧
      (calculate_costs audio_duration processing_time file_size_bytes
          provider).savings_percentage = 0) ∧
    (provider ≠ "cloud" →
      effective_cost audio_duration provider
        = (calculate_costs audio_duration processing_time file_size_bytes
            provider).local_compute_cost ∧
      (calculate_costs audio_duration processing_time file_size_bytes
          provider).savings
        = (calculate_costs audio_duration processing_time file_size_bytes
            provider).cloud_api_cost
          - (calculate_costs audio_duration processing_time file_size_bytes
              provider).local_compute_cost ∧
      (calculate_costs audio_duration processing_time file_size_bytes
          provider).savings_percentage
        = (if 0 < (calculate_costs audio_duration processing_time
              file_size_bytes provider).cloud_api_cost then
            (calculate_costs audio_duration processing_time file_size_bytes
                provider).savings
              / (calculate_costs audio_duration processing_time
                  file_size_bytes provider).cloud_api_cost * 100
          else 0)) ∧
    CostMetrics.processing_speed_ratio
        (calculate_costs audio_duration processing_time file_size_bytes
          provider)
      = (if 0 < processing_time then audio_duration / processing_time
         else 0) := by
  by_cases hp : provider = "cloud" <;>
    simp [calculate_costs, effective_cost, hp]

theorem calculate_costs_matches_reference_witness :
    (calculate_costs 120 2 0 "local").savings
        = (calculate_costs 120 2 0 "local").cloud_api_cost
          - (calculate_costs 120 2 0 "local").local_compute_cost ∧
    CostMetrics.processing_speed_ratio (calculate_costs 120 2 0 "local")
      = (if (0 : ℚ) < 2 then 120 / 2 else 0) :=
  ⟨((calculate_costs_matches_reference 120 2 0 "local").2.2.2.1
      (by decide)).2.1,
   (calculate_costs_matches_reference 120 2 0 "local").2.2.2.2⟩

/-- Claim C5 counterexample: for a job with progress 10 (not yet
transcribing), audio duration 60 and elapsed time 10, the source returns
estimated_remaining 0, while the heuristic described by the claim (about 3
times the audio duration minus elapsed, floored at 0) yields 170. -/
theorem progress_fallback_counterexample :
    TranscriptionProgress.estimated_remaining
        (get_progress_of_job
          { create_job "j" 0 "local" with
              progress := 10, start_time := 5, audio_duration := 60 } 15) = 0 ∧
    spec_heuristic_remaining 60 10 = 170 ∧
    (0 : ℚ) ≠ 170 := by
  refine ⟨?_, ?_, by norm_num⟩
  · norm_num [get_progress_of_job, create_job]
  · norm_num [spec_heuristic_remaining]

/-- Claim C5 (amended: for every job whose progress is at most 15, the
estimated remaining time returned by the progress read is 0; the source
has no audio-duration heuristic fallback). -/
theorem estimated_remaining_zero_before_transcribing
    (job : TranscriptionJob) (now : ℚ) (h : job.progress ≤ 15) :
    TranscriptionProgress.estimated_remaining (get_progress_of_job job now)
      = 0 := by
  have hc : ¬(job.progress > 15 ∧
      (if job.start_time > 0 then now - job.start_time else 0) > 0) :=
    fun hx => absurd hx.1 (not_lt.mpr h)
  simp only [get_progress_of_job, if_neg hc]

theorem estimated_remaining_zero_before_transcribing_witness :
    TranscriptionProgress.estimated_remaining
        (get_progress_of_job (create_job "j" 0 "local") 7) = 0 :=
  estimated_remaining_zero_before_transcribing (create_job "j" 0 "local") 7
    (by norm_num [create_job])

/-- Claim C6: for every job and wall-clock read, the estimated_remaining
value computed by the progress read is non-negative (a rational, hence
finite, never NaN or infinite), and whenever the denominator progress - 15
is not positive it is exactly 0. -/
theorem estimated_remaining_nonneg (job : TranscriptionJob) (now : ℚ) :
    0 ≤ TranscriptionProgress.estimated_remaining
        (get_progress_of_job job now) ∧
    (job.progress - 15 ≤ 0 →
      TranscriptionProgress.estimated_remaining (get_progress_of_job job now)
        = 0) := by
  constructor
  · simp only [get_progress_of_job]
    repeat' split
    all_goals first
      | exact le_max_left _ _
      | exact le_rfl
  · intro h
    have hc : ¬(job.progress > 15 ∧
        (if job.start_time > 0 then now - job.start_time else 0) > 0) :=
      fun hx => absurd hx.1 (not_lt.mpr (by linarith))
    simp only [get_progress_of_job, if_neg hc]

theorem estimated_remaining_nonneg_witness :
    0 ≤ TranscriptionProgress.estimated_remaining
        (get_progress_of_job (create_job "j" 0 "local") 3) ∧
    TranscriptionProgress.estimated_remaining
        (get_progress_of_job (create_job "j" 0 "local") 3) = 0 :=
  ⟨(estimated_remaining_nonneg (create_job "j" 0 "local") 3).1,
   (estimated_remaining_nonneg (create_job "j" 0 "local") 3).2
     (by norm_num [create_job])⟩

/-- Claim C7: a progress-stream subscription triggers execution start if
and only if the status at subscribe time is pending or uploading; once
execution is under way (the first write of the executor moves the job to
processing), a second subscription to the same job triggers nothing, so
two subscriptions around an in-progress job start exactly one execution. -/
theorem subscribe_triggers_iff (j : TranscriptionJob)
    (reads reads' : List (Option TranscriptionProgress))
    (job_id : String) (len : ℤ) (prov : String) (now : ℚ) :
    (started_count (stream_progress (some j) reads) = 1 ↔
      (j.status = "pending" ∨ j.status = "uploading")) ∧
    ((j.status = "pending" ∨ j.status = "uploading") →
      started_count (stream_progress (some j) reads) +
        started_count (stream_progress
          (some (begin_execution (some j) job_id len prov now)) reads') = 1) := by
  constructor
  · simp only [stream_progress, started_count, triggers_execution]
    constructor
    · intro h1
      by_cases hp : j.status = "pending"
      · exact Or.inl hp
      · right
        by_cases hu : j.status = "uploading"
        · exact hu
        · simp [hp, hu] at h1
    · intro h
      rcases h with h | h <;> simp [h]
  · intro h
    have h1 : started_count (stream_progress (some j) reads) = 1 := by
      rcases h with h | h <;>
        simp [stream_progress, started_count, triggers_execution, h]
    have h2 : started_count (stream_progress
        (some (begin_execution (some j) job_id len prov now)) reads') = 0 := by
      simp [stream_progress, started_count, triggers_execution, begin_execution]
    rw [h1, h2]

theorem subscribe_triggers_iff_witness :
    started_count (stream_progress (some (create_job "j" 0 "local")) []) +
      started_count (stream_progress
        (some (begin_execution (some (create_job "j" 0 "local"))
          "j" 0 "local" 0)) []) = 1 :=
  (subscribe_triggers_iff (create_job "j" 0 "local") [] [] "j" 0 "local" 0).2
    (Or.inl rfl)

/-- Claim C8: subscribing with an unknown job id yields the single
not-found rejection, which carries no cadence-loop events (the loop is
never entered) and is a different response shape from any stream, in
particular from a stream carrying a job error. -/
theorem unknown_job_stream_not_found
    (reads : List (Option TranscriptionProgress)) :
    stream_progress none reads = StreamResponse.notFound "Job not found" ∧
    response_events (stream_progress none reads) = [] ∧
    started_count (stream_progress none reads) = 0 ∧
    ∀ (started : Bool) (events : List SseEvent),
      StreamResponse.notFound "Job not found" ≠
        StreamResponse.stream started events := by
  refine ⟨rfl, rfl, rfl, ?_⟩
  intro started events h
  exact StreamResponse.noConfusion h

/-- Claim C9: decoding the encoded job snapshot returns the original job in
every field, for every job including one whose result nests CostMetrics
and both ProviderResults. -/
theorem job_snapshot_roundtrip (job : TranscriptionJob) :
    dict_to_job (job_to_dict job) = job := by
  rcases job with ⟨id, st, pr, cs, ts, stt, ad, fs, ct, res, err, prov⟩
  rcases res with _ | ⟨t, l, d, c, cm, p, lr, cr⟩
  · rfl
  · rcases cm with _ | _ <;> rcases lr with _ | _ <;> rcases cr with _ | _ <;> rfl

/-- Claim C10: a start request whose provider value is not local, cloud or
both is not rejected; the job is silently created with provider local
(shown for any otherwise-valid request: a listed audio content type
and a non-empty payload). -/
theorem invalid_provider_defaults_to_local
    (job_id content_type filename provider : String) (audio_len : ℤ)
    (hp : provider ∉ valid_providers)
    (ht : content_type ∈ start_valid_types)
    (hn : audio_len ≠ 0) :
    start_transcription job_id content_type filename provider audio_len =
      Except.ok { create_job job_id audio_len "local" with
        status := "uploading" } := by
  simp [start_transcription, ht, hn, hp]

theorem invalid_provider_defaults_to_local_witness :
    start_transcription "j" "audio/mpeg" "a.wav" "banana" 4 =
      Except.ok { create_job "j" 4 "local" with status := "uploading" } :=
  invalid_provider_defaults_to_local "j" "audio/mpeg" "a.wav" "banana" 4
    (by decide) (by decide) (by decide)

/-- Claim C1: starting from a job with neither result nor error set, the
executed job is terminal with exactly one of result and error set: the
complete path sets progress 100 and the result together with no error, the
error path stores the message and never a result, and the error write
itself leaves progress and result untouched while setting only status and
the message. -/
theorem terminal_result_error_exclusive (job_id : String)
    (job0 : Option TranscriptionJob) (audio_len : ℤ) (provider : String)
    (lo : Except String (List Segment × EngineInfo)) (lpt : ℚ)
    (co : Except String ProviderResult) (now finish : ℚ)
    (j : TranscriptionJob)
    (h0 : ∀ j0, job0 = some j0 → j0.result = none ∧ j0.error = none)
    (hj : j = transcribe_with_progress job_id job0 audio_len provider lo lpt
      co now finish) :
    (j.status = "complete" →
      j.result.isSome = true ∧ j.error = none ∧ j.progress = 100) ∧
    (j.status = "error" → j.error.isSome = true ∧ j.result = none) ∧
    ((j.status ≠ "complete" ∧ j.status ≠ "error") →
      j.result = none ∧ j.error = none) ∧
    (∀ (jb : TranscriptionJob) (msg : String),
      (error_write jb msg).progress = jb.progress ∧
      (error_write jb msg).result = jb.result ∧
      (error_write jb msg).status = "error" ∧
      (error_write jb msg).error = some msg) := by
  have hBr : (begin_execution job0 job_id audio_len provider now).result = none := by
    cases job0 with
    | none => rfl
    | some j0 => simpa [begin_execution] using (h0 j0 rfl).1
  have hBe : (begin_execution job0 job_id audio_len provider now).error = none := by
    cases job0 with
    | none => rfl
    | some j0 => simpa [begin_execution] using (h0 j0 rfl).2
  have key : (j.status = "complete" ∧ j.result.isSome = true ∧
        j.error = none ∧ j.progress = 100) ∨
      (j.status = "error" ∧ j.error.isSome = true ∧ j.result = none) := by
    subst hj
    simp only [transcribe_with_progress]
    by_cases hl : provider ∈ (["local", "both"] : List String)
    · simp only [if_pos hl]
      cases lo with
      | error e =>
        right
        simp [transcribe_local, error_write, hBr, hBe]
      | ok p =>
        obtain ⟨segs, info⟩ := p
        simp only [transcribe_local]
        by_cases hc : provider ∈ (["cloud", "both"] : List String)
        · simp only [if_pos hc]
          cases co with
          | error e =>
            right
            simp [error_write, foldl_consume_result, foldl_consume_error,
              hBr, hBe]
          | ok cr =>
            left
            simp [foldl_consume_result, foldl_consume_error, hBr, hBe]
        · simp only [if_neg hc]
          left
          simp [foldl_consume_result, foldl_consume_error, hBr, hBe]
    · simp only [if_neg hl]
      by_cases hc : provider ∈ (["cloud", "both"] : List String)
      · simp only [if_pos hc]
        cases co with
        | error e =>
          right
          simp [error_write, hBr, hBe]
        | ok cr =>
          left
          simp [hBr, hBe]
      · simp only [if_neg hc]
        left
        simp [hBr, hBe]
  refine ⟨?_, ?_, ?_, fun jb msg => ⟨rfl, rfl, rfl, rfl⟩⟩
  · intro hs
    rcases key with ⟨_, h1, h2, h3⟩ | ⟨hst, _, _⟩
    · exact ⟨h1, h2, h3⟩
    · rw [hst] at hs
      exact absurd hs (by decide)
  · intro hs
    rcases key with ⟨hst, _, _, _⟩ | ⟨_, h1, h2⟩
    · rw [hst] at hs
      exact absurd hs (by decide)
    · exact ⟨h1, h2⟩
  · intro hs
    rcases key with ⟨hst, _, _, _⟩ | ⟨hst, _, _⟩
    · exact absurd hst hs.1
    · exact absurd hst hs.2

theorem terminal_result_error_exclusive_witness :
    (transcribe_with_progress "j" none 0 "local" (Except.error "boom") 0
        (Except.error "x") 0 1).error.isSome = true ∧
    (transcribe_with_progress "j" none 0 "local" (Except.error "boom") 0
        (Except.error "x") 0 1).result = none :=
  (terminal_result_error_exclusive "j" none 0 "local" (Except.error "boom") 0
      (Except.error "x") 0 1
      (transcribe_with_progress "j" none 0 "local" (Except.error "boom") 0
        (Except.error "x") 0 1)
      (fun _ h => Option.noConfusion h) rfl).2.1 rfl

/-- Claim C3: in both mode with both legs succeeding, the terminal result
takes text, language and confidence from the local leg, takes duration
from the local result (which is present), and retains both the local and
the cloud ProviderResult in the terminal payload. -/
theorem both_mode_primary_is_local (job_id : String)
    (job0 : Option TranscriptionJob) (audio_len : ℤ) (segs : List Segment)
    (info : EngineInfo) (lpt : ℚ) (cr : ProviderResult) (now finish : ℚ) :
    (transcribe_with_progress job_id job0 audio_len "both"
        (Except.ok (segs, info)) lpt (Except.ok cr) now finish).status
      = "complete" ∧
    (transcribe_with_progress job_id job0 audio_len "both"
        (Except.ok (segs, info)) lpt (Except.ok cr) now
        finish).result.map TranscriptionResult.text
      = some (local_provider_result segs info lpt).text ∧
    (transcribe_with_progress job_id job0 audio_len "both"
        (Except.ok (segs, info)) lpt (Except.ok cr) now
        finish).result.map TranscriptionResult.language
      = some (local_provider_result segs info lpt).language ∧
    (transcribe_with_progress job_id job0 audio_len "both"
        (Except.ok (segs, info)) lpt (Except.ok cr) now
        finish).result.map TranscriptionResult.confidence
      = some (local_provider_result segs info lpt).confidence ∧
    (transcribe_with_progress job_id job0 audio_len "both"
        (Except.ok (segs, info)) lpt (Except.ok cr) now
        finish).result.map TranscriptionResult.duration
      = some (local_provider_result segs info lpt).duration ∧
    (transcribe_with_progress job_id job0 audio_len "both"
        (Except.ok (segs, info)) lpt (Except.ok cr) now
        finish).result.map TranscriptionResult.local_result
      = some (some (local_provider_result segs info lpt)) ∧
    (transcribe_with_progress job_id job0 audio_len "both"
        (Except.ok (segs, info)) lpt (Except.ok cr) now
        finish).result.map TranscriptionResult.cloud_result
      = some (some cr) := by
  have hloc := transcribe_local_snd
    (begin_execution job0 job_id audio_len "both" now) segs info lpt
  refine ⟨?_, ?_, ?_, ?_, ?_, ?_, ?_⟩ <;>
    simp [transcribe_with_progress, transcribe_local, local_provider_result,
      foldl_consume_text_parts, foldl_consume_total_confidence,
      foldl_consume_count]

end GTS
